import Mathlib

/-!
Verification development for the VeilDE-rs repository: a shallow embedding
of the graphics-surface lifecycle manager and frame-execution pipeline
(src/renderer.rs, src/app.rs, src/gui.rs, src/main.rs, src/consts.rs),
with theorems settling the specification claims about shader-handle
lifecycle, the per-frame redraw sequence, resize handling, abort
propagation, the fatal-error channel, delta time, surface creation and
crash-log persistence.

GPU calls are modelled as transitions on an explicit handle-table state;
platform and driver outcomes (compile status, link status, call success)
are supplied by oracle structures so that every branch of the source is
reachable in the model.
-/

namespace VeilDE

/-- Abstract GL object-table state: which shader, program and
vertex-array handles are currently live, which shaders are attached to
which programs, and the next fresh handle id.  Mirrors the driver-side
handle tables touched by the glow calls in src/renderer.rs. -/
structure GLState where
  nextId : Nat
  liveShaders : List Nat
  livePrograms : List Nat
  liveVertexArrays : List Nat
  attachments : List (Nat × Nat)
deriving Repr, DecidableEq

/-- Driver oracle for the fallible GL calls made by VeilDERenderer.new:
whether each create call succeeds, the compile status of stage i
(0 = vertex, 1 = fragment), the link status, and the info logs returned
by the driver on failure. -/
structure GLOracle where
  createProgramOk : Bool
  createVertexArrayOk : Bool
  createShaderOk : Nat → Bool
  compileOk : Nat → Bool
  linkOk : Bool
  shaderInfoLog : Nat → String
  programInfoLog : String

/-- gl.create_program: allocates a fresh program handle. -/
def GLState.createProgram (s : GLState) : GLState × Nat :=
  ({ s with nextId := s.nextId + 1, livePrograms := s.livePrograms ++ [s.nextId] }, s.nextId)

/-- gl.create_vertex_array: allocates a fresh vertex-array handle. -/
def GLState.createVertexArray (s : GLState) : GLState × Nat :=
  ({ s with nextId := s.nextId + 1, liveVertexArrays := s.liveVertexArrays ++ [s.nextId] }, s.nextId)

/-- gl.create_shader: allocates a fresh shader handle. -/
def GLState.createShader (s : GLState) : GLState × Nat :=
  ({ s with nextId := s.nextId + 1, liveShaders := s.liveShaders ++ [s.nextId] }, s.nextId)

/-- gl.attach_shader: records the (program, shader) attachment. -/
def GLState.attachShader (s : GLState) (p sh : Nat) : GLState :=
  { s with attachments := s.attachments ++ [(p, sh)] }

/-- gl.detach_shader: removes the (program, shader) attachment. -/
def GLState.detachShader (s : GLState) (p sh : Nat) : GLState :=
  { s with attachments := s.attachments.erase (p, sh) }

/-- gl.delete_shader: removes the shader handle from the live table. -/
def GLState.deleteShader (s : GLState) (sh : Nat) : GLState :=
  { s with liveShaders := s.liveShaders.erase sh }

/-- gl.delete_program: removes the program handle from the live table. -/
def GLState.deleteProgram (s : GLState) (p : Nat) : GLState :=
  { s with livePrograms := s.livePrograms.erase p }

/-- gl.delete_vertex_array: removes the vertex-array handle. -/
def GLState.deleteVertexArray (s : GLState) (va : Nat) : GLState :=
  { s with liveVertexArrays := s.liveVertexArrays.erase va }

/-- The empty driver state at startup. -/
def glInit : GLState := ⟨0, [], [], [], []⟩

/-- The renderer value built by VeilDERenderer::new on success
(src/renderer.rs lines 56-62): the linked program handle and the
vertex-array handle. -/
structure VeilDERenderer where
  program : Nat
  vertex_array : Nat
deriving Repr, DecidableEq

/-- Shallow embedding of VeilDERenderer::new (src/renderer.rs lines
14-64), with the two-element stage loop unrolled: create the program and
the vertex array; for each stage create a shader, compile it, bail with
the driver log if compilation failed, and otherwise attach it; then
link, bail with the program log if linking failed, and otherwise detach
and delete both stage shaders and return the renderer.  The bail on a
compile or link failure returns immediately, before the cleanup loop at
lines 51-54 runs. -/
def VeilDERenderer.new (o : GLOracle) (s0 : GLState) : GLState × Except String VeilDERenderer :=
  if !o.createProgramOk then (s0, .error "Failed to create OpenGL program") else
  let (s1, program) := s0.createProgram
  if !o.createVertexArrayOk then (s1, .error "Failed to create vertex array") else
  let (s2, vertex_array) := s1.createVertexArray
  if !o.createShaderOk 0 then (s2, .error "Failed to create shader") else
  let (s3, sh0) := s2.createShader
  if !o.compileOk 0 then (s3, .error (o.shaderInfoLog 0)) else
  let s4 := s3.attachShader program sh0
  if !o.createShaderOk 1 then (s4, .error "Failed to create shader") else
  let (s5, sh1) := s4.createShader
  if !o.compileOk 1 then (s5, .error (o.shaderInfoLog 1)) else
  let s6 := s5.attachShader program sh1
  if !o.linkOk then (s6, .error o.programInfoLog) else
  let s7 := (s6.detachShader program sh0).deleteShader sh0
  let s8 := (s7.detachShader program sh1).deleteShader sh1
  (s8, .ok ⟨program, vertex_array⟩)

/-- Shallow embedding of VeilDERenderer::shutdown (src/renderer.rs lines
85-90): deletes the program and the vertex array. -/
def VeilDERenderer.shutdown (r : VeilDERenderer) (s : GLState) : GLState :=
  (s.deleteProgram r.program).deleteVertexArray r.vertex_array

/-- Driver oracle on which every GL call succeeds. -/
def glOracleAllOk : GLOracle :=
  { createProgramOk := true
    createVertexArrayOk := true
    createShaderOk := fun _ => true
    compileOk := fun _ => true
    linkOk := true
    shaderInfoLog := fun _ => ""
    programInfoLog := "" }

/-- Driver oracle on which the vertex stage fails to compile with a
non-empty diagnostic; everything else succeeds. -/
def glOracleVertexCompileFail : GLOracle :=
  { glOracleAllOk with
    compileOk := fun i => i != 0
    shaderInfoLog := fun _ => "0:2: syntax error" }

/-- Driver oracle on which both stages compile but the program fails to
link with a non-empty diagnostic. -/
def glOracleLinkFail : GLOracle :=
  { glOracleAllOk with
    linkOk := false
    programInfoLog := "link failed: missing entry point" }

/-- Error values as built by the anyhow chains in the source: a base
message, possibly wrapped by context messages. -/
inductive AppError where
  | msg (s : String)
  | context (s : String) (cause : AppError)
deriving Repr, DecidableEq

/-- Oracle for one frame of VeilDEApplication::render (src/app.rs lines
202-222): the current Instant::now timestamp, whether the user pressed
the blow-up button inside the UI-building callback this frame, and
whether the ImGui draw-data render and the buffer swap succeed. -/
structure FrameOracle where
  now : Nat
  blowUpClicked : Bool
  imguiRenderOk : Bool
  swapOk : Bool
deriving Repr, DecidableEq

/-- The per-application mutable state relevant to the frame loop:
the last-frame timestamp (src/app.rs line 64). -/
structure AppState where
  lastFrame : Option Nat
deriving Repr, DecidableEq

/-- Observable GPU and UI calls issued by one execution of
VeilDEApplication::render, in issue order. -/
inductive RenderStep where
  | updateDeltaTime (delta : Nat)
  | clearColorBuffer
  | rendererDraw
  | buildGui
  | renderDrawData
  | swapBuffers
deriving Repr, DecidableEq

/-- Shallow embedding of VeilDEApplication::gui (src/app.rs lines
154-200): the VeilDE window build closure bails with "boom" when the
blow-up button was pressed; otherwise it and the taskbar window build
both return Ok. -/
def gui (o : FrameOracle) : Except AppError Unit :=
  if o.blowUpClicked then .error (.msg "boom") else .ok ()

/-- Shallow embedding of VeilDEApplication::render (src/app.rs lines
202-222).  It updates the ImGui delta time from the gap between now and
the last frame (zero when there is no last frame), records now as the
last frame, clears the color buffer, builds the GUI (the renderer.draw
call at line 210 is commented out in the source and issues no step),
renders the ImGui draw data, and swaps the surface buffers; the first
failing call aborts the frame with a context-wrapped error.  Returns the
updated state, the list of issued steps, and the frame outcome. -/
def render (o : FrameOracle) (st : AppState) :
    AppState × List RenderStep × Except AppError Unit :=
  let delta := o.now - st.lastFrame.getD o.now
  let st' : AppState := { lastFrame := some o.now }
  let steps0 := [RenderStep.updateDeltaTime delta, RenderStep.clearColorBuffer]
  match gui o with
  | .error e =>
      (st', steps0 ++ [RenderStep.buildGui],
       .error (.context "Failed to render VeilDE GUI" e))
  | .ok _ =>
      if o.imguiRenderOk then
        if o.swapOk then
          (st', steps0 ++ [RenderStep.buildGui, RenderStep.renderDrawData,
                           RenderStep.swapBuffers], .ok ())
        else
          (st', steps0 ++ [RenderStep.buildGui, RenderStep.renderDrawData,
                           RenderStep.swapBuffers],
           .error (.context "Failed to swap surface buffers" (.msg "platform swap failure")))
      else
        (st', steps0 ++ [RenderStep.buildGui, RenderStep.renderDrawData],
         .error (.msg "Failed to render ImGui renderer data"))

/-- The redraw sequence the specification describes: delta time, clear,
the GPUResourcePipeline triangle draw, UI build, UI draw-data
submission, present.  Stated from the spec for comparison with the
sequence the source actually issues. -/
def specRedrawSequence (delta : Nat) : List RenderStep :=
  [RenderStep.updateDeltaTime delta, RenderStep.clearColorBuffer,
   RenderStep.rendererDraw, RenderStep.buildGui, RenderStep.renderDrawData,
   RenderStep.swapBuffers]

/-- Platform window events consumed by the handler. -/
inductive WinEvent where
  | closeRequested
  | redrawRequested
  | resized (w h : Nat)
  | other
deriving Repr, DecidableEq

/-- State of VeilDEApplicationHandler (src/app.rs lines 68-71) together
with the fatal-error channel contents and the event-loop exit flag. -/
structure Handler where
  application : Option AppState
  channel : List AppError
  exited : Bool
deriving Repr, DecidableEq

/-- Shallow embedding of VeilDEApplicationHandler::window_event
(src/app.rs lines 239-268): when an application exists, a close request
shuts the renderer down and exits the loop, a redraw request runs
render, and any error from the closure is context-wrapped, sent on the
fatal-error channel, and exits the loop.  Every other event (including
resize) only forwards input and requests another redraw, changing none
of the modelled state. -/
def windowEvent (o : FrameOracle) (ev : WinEvent) (h : Handler) : Handler :=
  match h.application with
  | none => h
  | some app =>
    match ev with
    | .closeRequested => { h with exited := true }
    | .redrawRequested =>
        match render o app with
        | (app', _, .ok _) => { h with application := some app' }
        | (app', _, .error e) =>
            { h with application := some app',
                     channel := h.channel ++ [AppError.context "Failed to draw VeilDE application" e],
                     exited := true }
    | _ => h

/-- Shallow embedding of VeilDEApplicationHandler::resumed (src/app.rs
lines 226-237): constructs the application only when none exists yet; a
construction failure is sent on the fatal-error channel and exits the
loop. -/
def resumed (create : Except AppError AppState) (h : Handler) : Handler :=
  match h.application with
  | some _ => h
  | none =>
      match create with
      | .ok app => { h with application := some app }
      | .error e => { h with channel := h.channel ++ [e], exited := true }

/-- The winit event loop as driven by run_app: each delivered event is
handled by windowEvent with the driver oracle of that event; once the
loop has been asked to exit, no further events are dispatched. -/
def runLoop : List (WinEvent × FrameOracle) → Handler → Handler
  | [], h => h
  | (ev, o) :: rest, h =>
      if h.exited then h else runLoop rest (windowEvent o ev h)

/-- The handler state at the start of a run (src/app.rs lines 74-79):
no application, empty channel, loop running. -/
def handlerInit : Handler := ⟨none, [], false⟩

/-- A full run of the event loop: resumed fires first with the outcome
of VeilDEApplication::new, then the window events are dispatched. -/
def runApp (create : Except AppError AppState) (events : List (WinEvent × FrameOracle)) : Handler :=
  runLoop events (resumed create handlerInit)

/-- Shallow embedding of init (src/app.rs lines 404-421): run the event
loop, then try_recv once on the fatal-error channel; bail with the
received error when there is one, otherwise return Ok. -/
def appInit (create : Except AppError AppState) (events : List (WinEvent × FrameOracle)) :
    Except AppError Unit :=
  match (runApp create events).channel.head? with
  | some e => .error e
  | none => .ok ()

/-- The presentation-surface state touched by the Resized arm: the
back-buffer size and the GPU viewport rectangle. -/
structure SurfaceState where
  surfaceSize : Nat × Nat
  viewport : Nat × Nat × Nat × Nat
deriving Repr, DecidableEq

/-- Shallow embedding of the WindowEvent::Resized arm of
VeilDEApplication::window_event (src/gui.rs lines 113-130): when both
dimensions are positive, resize the surface back buffer to (w, h) and
set the GPU viewport to (0, 0, w, h); otherwise leave everything
unchanged. -/
def resizeEvent (st : SurfaceState) (w h : Nat) : SurfaceState :=
  if w > 0 && h > 0 then
    { surfaceSize := (w, h), viewport := (0, 0, w, h) }
  else st

/-- The fixed WINDOW_SIZE constant (src/app.rs line 42 and src/gui.rs
line 49): 1600 by 900. -/
def WINDOW_SIZE : Nat × Nat := (1600, 900)

/-- Oracle for the fallible platform calls inside init_opengl. -/
structure OpenGlOracle where
  windowHandleOk : Bool
  createContextOk : Bool
  createSurfaceOk : Bool
  makeCurrentOk : Bool
deriving Repr, DecidableEq

/-- What init_opengl hands back on success: the dimensions the window
surface was built with, and whether the context was made current on the
calling thread before the call returned. -/
structure OpenGlResult where
  surfaceSize : Nat × Nat
  contextCurrentOnCallingThread : Bool
deriving Repr, DecidableEq

/-- Shallow embedding of init_opengl (src/app.rs lines 339-386): create
the context from the window handle, create the window surface with
dimensions taken from the constant WINDOW_SIZE (lines 373-374) — the
windowClientSize argument, the current client area of the window, is
not consulted — and finally make the context current before returning.
Each failing platform call surfaces its context message. -/
def init_opengl (o : OpenGlOracle) (_windowClientSize : Nat × Nat) :
    Except AppError OpenGlResult :=
  if !o.windowHandleOk then .error (.msg "Failed to get window handle for context") else
  if !o.createContextOk then .error (.msg "Failed to create OpenGL context") else
  if !o.createSurfaceOk then .error (.msg "Failed to create window surface") else
  if !o.makeCurrentOk then .error (.msg "Failed to make OpenGL context current") else
  .ok { surfaceSize := WINDOW_SIZE, contextCurrentOnCallingThread := true }

/-- The inner size VeilDEApplication::new requests for the window
(src/app.rs lines 92-98): the primary monitor video-mode resolution
plus one in each dimension. -/
def appWindowSize (resolution : Nat × Nat) : Nat × Nat :=
  (resolution.1 + 1, resolution.2 + 1)

/-- An OpenGL-init oracle on which every platform call succeeds. -/
def openGlOracleAllOk : OpenGlOracle := ⟨true, true, true, true⟩

/-- The filesystem state touched by save_log: whether the crash
directory already exists, and the files written so far. -/
structure FileSystem where
  crashDirExists : Bool
  files : List (String × String)
deriving Repr, DecidableEq

/-- Shallow embedding of save_log (src/main.rs lines 9-27):
std.fs.create_dir on the crash directory fails when the directory
already exists, and that error propagates out before any file write;
otherwise the directory is created and the log written to a
timestamp-named file inside it (the name is supplied by the caller
since it comes from the wall clock).  writeOk models the outcome of
the file write itself. -/
def save_log (writeOk : Bool) (name : String) (log : String) (fs : FileSystem) :
    FileSystem × Except AppError Unit :=
  if fs.crashDirExists then
    (fs, .error (.msg "File exists"))
  else if !writeOk then
    ({ fs with crashDirExists := true },
     .error (.context "Failed to write log file" (.msg "write failed")))
  else
    (⟨true, fs.files ++ [("crash/" ++ name, log)]⟩, .ok ())

/-- User-visible actions performed by main. -/
inductive MainAction where
  | printStderr (text : String)
  | showInfoDialog (text : String)
  | showErrorDialog (text : String)
  | panicked (text : String)
deriving Repr, DecidableEq

/-- The Debug formatting of an anyhow error chain as printed by main:
the top message followed by its chain of causes. -/
def formatError : AppError → String
  | .msg s => s
  | .context s cause => s ++ "\n\nCaused by:\n    " ++ formatError cause

/-- Shallow embedding of main (src/main.rs lines 29-56): on success
show the confirmation dialog; on failure format the error, print it to
stderr, show the error dialog, and then save the log — a save_log
failure hits the expect and panics the process with no log file
written. -/
def main (writeOk : Bool) (logName : String) (appResult : Except AppError Unit)
    (fs : FileSystem) : FileSystem × List MainAction :=
  match appResult with
  | .ok _ => (fs, [.showInfoDialog "Nothing failed!"])
  | .error e =>
      let display := formatError e
      let acts := [MainAction.printStderr display, MainAction.showErrorDialog display]
      match save_log writeOk logName display fs with
      | (fs', .ok _) => (fs', acts)
      | (fs', .error _) => (fs', acts ++ [.panicked "Failed to save log file"])

/-- Channel discipline maintained by the handler: at most one fatal
error is ever in the channel, and once one is there the loop has been
asked to exit. -/
def HandlerWF (h : Handler) : Prop :=
  h.channel.length ≤ 1 ∧ (h.channel ≠ [] → h.exited = true)

end VeilDE

namespace VeilDE

theorem render_head_delta (o : FrameOracle) (st : AppState) :
    (render o st).2.1.head? =
      some (RenderStep.updateDeltaTime (o.now - st.lastFrame.getD o.now)) := by
  unfold render
  cases hg : gui o with
  | error e => simp
  | ok u =>
      by_cases hi : o.imguiRenderOk = true <;> by_cases hs : o.swapOk = true <;>
        simp [hi, hs]

theorem render_records_timestamp (o : FrameOracle) (st : AppState) :
    (render o st).1 = { lastFrame := some o.now } := by
  unfold render
  cases hg : gui o with
  | error e => simp
  | ok u =>
      by_cases hi : o.imguiRenderOk = true <;> by_cases hs : o.swapOk = true <;>
        simp [hi, hs]

theorem windowEvent_wf (o : FrameOracle) (ev : WinEvent) (h : Handler)
    (hch : h.channel = []) : HandlerWF (windowEvent o ev h) := by
  unfold HandlerWF
  cases happ : h.application with
  | none => simp [windowEvent, happ, hch]
  | some app =>
      cases ev with
      | closeRequested => simp [windowEvent, happ, hch]
      | redrawRequested =>
          rcases hr : render o app with ⟨app', tr, r⟩
          cases r with
          | ok u => simp [windowEvent, happ, hr, hch]
          | error e => simp [windowEvent, happ, hr, hch]
      | resized w hgt => simp [windowEvent, happ, hch]
      | other => simp [windowEvent, happ, hch]

theorem runLoop_wf (events : List (WinEvent × FrameOracle)) (h : Handler)
    (hw : HandlerWF h) : HandlerWF (runLoop events h) := by
  induction events generalizing h with
  | nil => simpa [runLoop] using hw
  | cons p rest ih =>
      rcases p with ⟨ev, o⟩
      by_cases hex : h.exited = true
      · simpa [runLoop, hex] using hw
      · have hch : h.channel = [] := by
          by_contra hne
          exact hex (hw.2 hne)
        rw [runLoop]
        simp only [hex, if_false]
        exact ih _ (windowEvent_wf o ev h hch)

theorem runApp_wf (create : Except AppError AppState)
    (events : List (WinEvent × FrameOracle)) : HandlerWF (runApp create events) := by
  apply runLoop_wf
  cases create <;> simp [HandlerWF, resumed, handlerInit]

/-- C1 counterexample: on a vertex-stage compile failure,
VeilDERenderer.new returns the ShaderCompileError carrying the driver
log, yet the stage shader handle it created (id 2) is still live in the
GL handle table — the stage handle is not detached and deleted on this
exit path, contradicting the claim that no stage shader handle is
leaked regardless of which branch is taken. -/
theorem rendererNew_leaks_stage_shader_on_compile_failure :
    (VeilDERenderer.new glOracleVertexCompileFail glInit).2 = .error "0:2: syntax error"
    ∧ (VeilDERenderer.new glOracleVertexCompileFail glInit).1.liveShaders = [2]
    ∧ ¬(VeilDERenderer.new glOracleVertexCompileFail glInit).1.liveShaders = [] :=
  ⟨rfl, rfl, by decide⟩

/-- C1 (amended): the two transient stage shader handles are detached
and deleted only on the successful-link exit path of
VeilDERenderer.new; when a stage fails to compile, or when linking
fails after both stages compiled, the already-created stage shader
handles remain live (they are leaked). -/
theorem rendererNew_stage_shader_lifecycle (o : GLOracle)
    (hp : o.createProgramOk = true) (hv : o.createVertexArrayOk = true)
    (hs0 : o.createShaderOk 0 = true) (hs1 : o.createShaderOk 1 = true) :
    (o.compileOk 0 = true → o.compileOk 1 = true → o.linkOk = true →
       (VeilDERenderer.new o glInit).1.liveShaders = []
       ∧ (VeilDERenderer.new o glInit).1.attachments = [])
    ∧ (o.compileOk 0 = false →
       (VeilDERenderer.new o glInit).1.liveShaders = [2])
    ∧ (o.compileOk 0 = true → o.compileOk 1 = false →
       (VeilDERenderer.new o glInit).1.liveShaders = [2, 3])
    ∧ (o.compileOk 0 = true → o.compileOk 1 = true → o.linkOk = false →
       (VeilDERenderer.new o glInit).1.liveShaders = [2, 3]
       ∧ (VeilDERenderer.new o glInit).1.attachments = [(0, 2), (0, 3)]) := by
  refine ⟨fun h0 h1 hl => ?_, fun h0 => ?_, fun h0 h1 => ?_, fun h0 h1 hl => ?_⟩
  · simp [VeilDERenderer.new, hp, hv, hs0, hs1, h0, h1, hl, glInit,
          GLState.createProgram, GLState.createVertexArray, GLState.createShader,
          GLState.attachShader, GLState.detachShader, GLState.deleteShader]
  · simp [VeilDERenderer.new, hp, hv, hs0, hs1, h0, glInit,
          GLState.createProgram, GLState.createVertexArray, GLState.createShader,
          GLState.attachShader, GLState.detachShader, GLState.deleteShader]
  · simp [VeilDERenderer.new, hp, hv, hs0, hs1, h0, h1, glInit,
          GLState.createProgram, GLState.createVertexArray, GLState.createShader,
          GLState.attachShader, GLState.detachShader, GLState.deleteShader]
  · simp [VeilDERenderer.new, hp, hv, hs0, hs1, h0, h1, hl, glInit,
          GLState.createProgram, GLState.createVertexArray, GLState.createShader,
          GLState.attachShader, GLState.detachShader, GLState.deleteShader]

/-- C1 witness: on the link-failure oracle both stage handles (ids 2
and 3) remain live and attached. -/
theorem rendererNew_stage_shader_lifecycle_witness :
    (VeilDERenderer.new glOracleLinkFail glInit).1.liveShaders = [2, 3]
    ∧ (VeilDERenderer.new glOracleLinkFail glInit).1.attachments = [(0, 2), (0, 3)] :=
  (rendererNew_stage_shader_lifecycle glOracleLinkFail rfl rfl rfl rfl).2.2.2 rfl rfl rfl

/-- C2 counterexample: on a fully successful redraw, the step sequence
issued by render is not the specified sequence — the
GPUResourcePipeline draw step never appears in it, because the
renderer.draw call at src/app.rs line 210 is commented out. -/
theorem render_omits_pipeline_draw :
    ¬(render ⟨5, false, true, true⟩ ⟨none⟩).2.1 = specRedrawSequence 0
    ∧ ¬RenderStep.rendererDraw ∈ (render ⟨5, false, true, true⟩ ⟨none⟩).2.1
    ∧ (render ⟨5, false, true, true⟩ ⟨none⟩).2.2 = .ok () := by
  refine ⟨by decide, by decide, rfl⟩

/-- C2 (amended): on every redraw-request event the frame execution
performs, in order: compute delta time, clear the frame buffer, build
the UI frame, submit the UI draw data, and present — with no
GPUResourcePipeline draw call, since that call is commented out in the
source. -/
theorem render_redraw_sequence (o : FrameOracle) (st : AppState)
    (hb : o.blowUpClicked = false) (hi : o.imguiRenderOk = true)
    (hsw : o.swapOk = true) :
    (render o st).2.1 =
      [RenderStep.updateDeltaTime (o.now - st.lastFrame.getD o.now),
       RenderStep.clearColorBuffer, RenderStep.buildGui,
       RenderStep.renderDrawData, RenderStep.swapBuffers]
    ∧ (render o st).2.2 = .ok ()
    ∧ ¬RenderStep.rendererDraw ∈ (render o st).2.1 := by
  simp [render, gui, hb, hi, hsw]

/-- C2 witness: the amended sequence at a concrete frame. -/
theorem render_redraw_sequence_witness :
    (render ⟨7, false, true, true⟩ ⟨some 3⟩).2.1 =
      [RenderStep.updateDeltaTime 4, RenderStep.clearColorBuffer,
       RenderStep.buildGui, RenderStep.renderDrawData, RenderStep.swapBuffers]
    ∧ (render ⟨7, false, true, true⟩ ⟨some 3⟩).2.2 = .ok ()
    ∧ ¬RenderStep.rendererDraw ∈ (render ⟨7, false, true, true⟩ ⟨some 3⟩).2.1 :=
  render_redraw_sequence ⟨7, false, true, true⟩ ⟨some 3⟩ rfl rfl rfl

/-- C3: a resize event with either dimension zero leaves the surface
size and GPU viewport unchanged; a resize event with both dimensions
positive resizes the back buffer to (w, h) and sets the viewport to
(0, 0, w, h); and the sequence (1600, 900), (0, 0), (800, 600) yields a
final surface and viewport of exactly 800 by 600 with the (0, 0) event
producing no state change. -/
theorem resize_event_spec :
    (∀ (st : SurfaceState) (w h : Nat), w = 0 ∨ h = 0 → resizeEvent st w h = st)
    ∧ (∀ (st : SurfaceState) (w h : Nat), 0 < w → 0 < h →
        (resizeEvent st w h).surfaceSize = (w, h)
        ∧ (resizeEvent st w h).viewport = (0, 0, w, h))
    ∧ (∀ st : SurfaceState,
        resizeEvent (resizeEvent st 1600 900) 0 0 = resizeEvent st 1600 900
        ∧ (resizeEvent (resizeEvent (resizeEvent st 1600 900) 0 0) 800 600).surfaceSize
            = (800, 600)
        ∧ (resizeEvent (resizeEvent (resizeEvent st 1600 900) 0 0) 800 600).viewport
            = (0, 0, 800, 600)) := by
  refine ⟨fun st w h hz => ?_, fun st w h hw hh => ?_, fun st => ?_⟩
  · rcases hz with rfl | rfl <;> simp [resizeEvent]
  · simp [resizeEvent, hw, hh]
  · simp [resizeEvent]

/-- C3 witness: the zero-dimension no-op and a positive resize at
concrete inputs. -/
theorem resize_event_spec_witness :
    resizeEvent ⟨(1600, 900), (0, 0, 1600, 900)⟩ 0 5 = ⟨(1600, 900), (0, 0, 1600, 900)⟩
    ∧ (resizeEvent ⟨(1600, 900), (0, 0, 1600, 900)⟩ 800 600).surfaceSize = (800, 600) :=
  ⟨resize_event_spec.1 ⟨(1600, 900), (0, 0, 1600, 900)⟩ 0 5 (Or.inl rfl),
   (resize_event_spec.2.1 ⟨(1600, 900), (0, 0, 1600, 900)⟩ 800 600
      (by decide) (by decide)).1⟩

/-- C4: when the UI-building callback signals an abort (the blow-up
button), the frame short-circuits — the UI draw-data submission and the
buffer swap are not executed, render returns the context-wrapped fatal
error, the handler delivers that error to the fatal-error channel, and
the event loop is asked to exit. -/
theorem gui_abort_short_circuits_frame (o : FrameOracle) (st : AppState) (h : Handler)
    (happ : h.application = some st) (hch : h.channel = [])
    (hclick : o.blowUpClicked = true) :
    ¬RenderStep.renderDrawData ∈ (render o st).2.1
    ∧ ¬RenderStep.swapBuffers ∈ (render o st).2.1
    ∧ (render o st).2.2 = .error (.context "Failed to render VeilDE GUI" (.msg "boom"))
    ∧ (windowEvent o .redrawRequested h).channel =
        [AppError.context "Failed to draw VeilDE application"
          (.context "Failed to render VeilDE GUI" (.msg "boom"))]
    ∧ (windowEvent o .redrawRequested h).exited = true := by
  refine ⟨?_, ?_, ?_, ?_, ?_⟩ <;>
    simp [windowEvent, happ, hch, render, gui, hclick]

/-- C4 witness: the abort path at a concrete frame and handler state. -/
theorem gui_abort_short_circuits_frame_witness :
    ¬RenderStep.renderDrawData ∈ (render ⟨5, true, true, true⟩ ⟨some 2⟩).2.1
    ∧ ¬RenderStep.swapBuffers ∈ (render ⟨5, true, true, true⟩ ⟨some 2⟩).2.1
    ∧ (render ⟨5, true, true, true⟩ ⟨some 2⟩).2.2 =
        .error (.context "Failed to render VeilDE GUI" (.msg "boom"))
    ∧ (windowEvent ⟨5, true, true, true⟩ .redrawRequested ⟨some ⟨some 2⟩, [], false⟩).channel =
        [AppError.context "Failed to draw VeilDE application"
          (.context "Failed to render VeilDE GUI" (.msg "boom"))]
    ∧ (windowEvent ⟨5, true, true, true⟩ .redrawRequested ⟨some ⟨some 2⟩, [], false⟩).exited
        = true :=
  gui_abort_short_circuits_frame ⟨5, true, true, true⟩ ⟨some 2⟩
    ⟨some ⟨some 2⟩, [], false⟩ rfl rfl rfl

/-- C5 counterexample: with every platform call succeeding and a window
whose client area is 2561 by 1441 (the size VeilDEApplication::new
requests on a 2560 by 1440 monitor), init_opengl creates the surface
with dimensions 1600 by 900 — the fixed WINDOW_SIZE constant — which is
not the current client area of the window. -/
theorem init_opengl_surface_ignores_window_size :
    init_opengl openGlOracleAllOk (appWindowSize (2560, 1440)) =
      .ok ⟨(1600, 900), true⟩
    ∧ ¬appWindowSize (2560, 1440) = (1600, 900) :=
  ⟨rfl, by decide⟩

/-- C5 (amended): on success init_opengl produces a surface sized to
the fixed constant WINDOW_SIZE (1600 by 900) regardless of the window
client area, and makes the rendering context current on the calling
thread as part of the same call. -/
theorem init_opengl_fixed_surface_and_current_context (o : OpenGlOracle)
    (ws : Nat × Nat) (h1 : o.windowHandleOk = true) (h2 : o.createContextOk = true)
    (h3 : o.createSurfaceOk = true) (h4 : o.makeCurrentOk = true) :
    init_opengl o ws =
      .ok { surfaceSize := WINDOW_SIZE, contextCurrentOnCallingThread := true } := by
  simp [init_opengl, h1, h2, h3, h4]

/-- C5 witness: the successful path at a concrete client area. -/
theorem init_opengl_fixed_surface_and_current_context_witness :
    init_opengl openGlOracleAllOk (3840, 2160) =
      .ok { surfaceSize := WINDOW_SIZE, contextCurrentOnCallingThread := true } :=
  init_opengl_fixed_surface_and_current_context openGlOracleAllOk (3840, 2160)
    rfl rfl rfl rfl

/-- C6: for every run, the fatal-error channel ends holding at most one
error; init returns Ok exactly when no error was sent during the run,
and when an error was sent, init returns that very error. -/
theorem fatal_error_channel_protocol (create : Except AppError AppState)
    (events : List (WinEvent × FrameOracle)) :
    (runApp create events).channel.length ≤ 1
    ∧ (appInit create events = .ok () ↔ (runApp create events).channel = [])
    ∧ (∀ e, (runApp create events).channel = [e] → appInit create events = .error e) := by
  have hw := runApp_wf create events
  refine ⟨hw.1, ?_, ?_⟩
  · unfold appInit
    cases hch : (runApp create events).channel with
    | nil => simp
    | cons e rest => simp
  · intro e hch
    unfold appInit
    rw [hch]
    rfl

/-- C6 witness: a run whose single frame aborts delivers exactly that
error out of init. -/
theorem fatal_error_channel_protocol_witness :
    appInit (.ok ⟨none⟩) [(.redrawRequested, ⟨5, true, true, true⟩)] =
      .error (.context "Failed to draw VeilDE application"
        (.context "Failed to render VeilDE GUI" (.msg "boom"))) :=
  (fatal_error_channel_protocol (.ok ⟨none⟩)
      [(.redrawRequested, ⟨5, true, true, true⟩)]).2.2 _ rfl

/-- C7: the delta time fed to the UI layer is exactly 0 on the very
first frame (no prior timestamp), and on every subsequent frame equals
the interval between the current timestamp and the previous frame
timestamp; render records the current timestamp as the new last-frame
timestamp. -/
theorem delta_time_spec (o : FrameOracle) (st : AppState) :
    (st.lastFrame = none →
      (render o st).2.1.head? = some (RenderStep.updateDeltaTime 0))
    ∧ (∀ t, st.lastFrame = some t → t ≤ o.now →
        (render o st).2.1.head? = some (RenderStep.updateDeltaTime (o.now - t)))
    ∧ (render o st).1.lastFrame = some o.now := by
  refine ⟨fun hn => ?_, fun t ht hle => ?_, ?_⟩
  · rw [render_head_delta]
    simp [hn]
  · rw [render_head_delta]
    rw [ht]
    rfl
  · rw [render_records_timestamp]

/-- C7 witness: delta 0 on the first frame and delta 5 between
timestamps 4 and 9. -/
theorem delta_time_spec_witness :
    (render ⟨9, false, true, true⟩ ⟨none⟩).2.1.head? =
      some (RenderStep.updateDeltaTime 0)
    ∧ (render ⟨9, false, true, true⟩ ⟨some 4⟩).2.1.head? =
      some (RenderStep.updateDeltaTime 5) :=
  ⟨(delta_time_spec ⟨9, false, true, true⟩ ⟨none⟩).1 rfl,
   (delta_time_spec ⟨9, false, true, true⟩ ⟨some 4⟩).2.1 4 rfl (by decide)⟩

/-- C9: on a failing run whose crash directory already exists (any
failing run after the first one ever), main shows the formatted error
but save_log fails at create_dir with AlreadyExists, the expect panics
the process, and no log file is written — the error is not persisted to
a timestamped log artifact before exit, while on a successful run the
confirmation dialog is shown. -/
theorem main_second_failure_loses_log :
    (main true "20260101120000000.log" (.error (.msg "boom"))
        ⟨true, [("crash/20260101000000000.log", "earlier failure")]⟩).1.files =
      [("crash/20260101000000000.log", "earlier failure")]
    ∧ MainAction.panicked "Failed to save log file" ∈
        (main true "20260101120000000.log" (.error (.msg "boom"))
          ⟨true, [("crash/20260101000000000.log", "earlier failure")]⟩).2
    ∧ MainAction.showErrorDialog "boom" ∈
        (main true "20260101120000000.log" (.error (.msg "boom"))
          ⟨true, [("crash/20260101000000000.log", "earlier failure")]⟩).2
    ∧ (main true "any.log" (.ok ()) ⟨false, []⟩).2 =
        [MainAction.showInfoDialog "Nothing failed!"] := by
  refine ⟨rfl, by decide, by decide, rfl⟩

/-- C10: once the application has been created, every further
invocation of the resumed callback is a no-op — the handler state is
unchanged, so no second window, context, or surface is created. -/
theorem resumed_noop_after_creation (create : Except AppError AppState)
    (h : Handler) (a : AppState) (ha : h.application = some a) :
    resumed create h = h := by
  simp [resumed, ha]

/-- C10 witness: a second resumed call on a live handler changes
nothing. -/
theorem resumed_noop_after_creation_witness :
    resumed (.error (.msg "second creation")) ⟨some ⟨none⟩, [], false⟩ =
      ⟨some ⟨none⟩, [], false⟩ :=
  resumed_noop_after_creation (.error (.msg "second creation"))
    ⟨some ⟨none⟩, [], false⟩ ⟨none⟩ rfl

end VeilDE
